import Mathlib

/-!
Verification of the ChArUco camera-calibration script (`main.py`).

The script has two flows sharing module-level accumulation state:

* a live-capture loop that previews camera frames with detection overlays
  drawn on a deep copy (`process_frame`), saves the raw frame on SPACE and
  exits on ESC;
* a batch loop over `glob('./calibration_pictures/*.*')` that, per image,
  decodes it, detects ArUco markers, interpolates ChArUco corners, and for
  `response > 20` appends the corners/ids to `corners_all`/`ids_all` and
  records `image_size` on first acceptance; followed by two fatal checks
  (empty glob, unset resolution) and a single calibration solve whose
  result is written to a key-value file on success.

The OpenCV library calls are external: each image/frame is modelled as a
record carrying the results those calls would return for it (marker
corners/ids from `detectMarkers`, the matched-corner count `response` and
interpolated corners/ids from `interpolateCornersCharuco`, the greyscale
`shape`, and whether `imread` succeeds).  The script's own control flow is
embedded as explicit state passing over those records.
-/

/-- Abstract ChArUco corner-coordinate set (one per accepted image). -/
abbrev CornerSet := List (Int × Int)

/-- Abstract ChArUco corner-id set (one per accepted image). -/
abbrev IdSet := List Nat

/-- One globbed file of the batch flow, together with the results the
external vision library returns for it: whether `cv2.imread` decodes it,
the greyscale `shape` (rows, cols), the `detectMarkers` output, and the
`interpolateCornersCharuco` output (`response` is the matched-corner
count). -/
structure ImageFile where
  name : String
  decodes : Bool
  shape : Nat × Nat
  markerCorners : List (Int × Int)
  markerIds : List Nat
  response : Nat
  charucoCorners : CornerSet
  charucoIds : IdSet
deriving DecidableEq

/-- The module-level mutable state of the batch flow: the two parallel
accumulation lists `corners_all` and `ids_all`, the `image_size` sentinel
(`None` until first acceptance), and the console messages printed so far. -/
structure BatchState where
  corners_all : List CornerSet
  ids_all : List IdSet
  image_size : Option (Nat × Nat)
  log : List String
deriving DecidableEq

/-- Initial batch state (`corners_all = []`, `ids_all = []`,
`image_size = None`, lines 24-26 of `main.py`). -/
def initialBatch : BatchState :=
  { corners_all := [], ids_all := [], image_size := none, log := [] }

/-- The body of the batch loop (lines 77-122 of `main.py`) for one image
whose decode succeeded: if `response > 20`, append `charuco_corners` and
`charuco_ids` to the accumulation lists and, when `image_size` is unset,
record `gray.shape[::-1]` (the reversed shape); otherwise print the
"Not able to detect" diagnostic naming the file.  Drawing and resizing
affect only the local image and are tracked by `batchCalls` below. -/
def batchStep (s : BatchState) (f : ImageFile) : BatchState :=
  if 20 < f.response then
    { s with
      corners_all := s.corners_all ++ [f.charucoCorners],
      ids_all := s.ids_all ++ [f.charucoIds],
      image_size :=
        match s.image_size with
        | none => some (f.shape.2, f.shape.1)
        | some v => some v }
  else
    { s with
      log := s.log ++ ["Not able to detect a charuco board in image: " ++ f.name] }

/-- The whole batch loop, folded over the globbed files from the initial
module-level state. -/
def runBatch (images : List ImageFile) : BatchState :=
  List.foldl batchStep initialBatch images

/-- The batch loop body including the unchecked `cv2.imread`: the code
never tests the decode result, so a file that fails to decode aborts the
flow (in Python, `cv2.cvtColor(None, ...)` raises).  On success it behaves
as `batchStep`. -/
def batchStepE (s : BatchState) (f : ImageFile) : Except String BatchState :=
  if f.decodes then Except.ok (batchStep s f) else Except.error f.name

/-- The batch loop over `batchStepE`: stops with an error at the first
file whose decode fails. -/
def runBatchE : BatchState → List ImageFile → Except String BatchState
  | s, [] => Except.ok s
  | s, f :: rest =>
    match batchStepE s f with
    | Except.ok s2 => runBatchE s2 rest
    | Except.error e => Except.error e

/-- The external vision-library calls the script can make for one image
or frame. -/
inductive LibCall where
  | imread
  | cvtColor
  | detectMarkers
  | drawMarkers
  | interpolate
  | drawCorners
  | resize
deriving DecidableEq

/-- The sequence of vision-library calls the batch loop body makes for one
globbed file (lines 79-119 of `main.py`): decode, greyscale, marker
detection, marker drawing and corner interpolation are all unconditional;
only the corner drawing and the display resize are guarded by
`response > 20`. -/
def batchCalls (f : ImageFile) : List LibCall :=
  [LibCall.imread, LibCall.cvtColor, LibCall.detectMarkers,
   LibCall.drawMarkers, LibCall.interpolate] ++
  (if 20 < f.response then [LibCall.drawCorners, LibCall.resize] else [])

/-- One camera frame of the live flow, with the results the vision library
returns for it: the abstract pixel payload, the `detectMarkers` output,
and the `interpolateCornersCharuco` output (`interpRetval` is the matched
count, truthy iff nonzero). -/
structure Frame where
  pixels : Nat
  markerCorners : List (Int × Int)
  markerIds : List Nat
  interpRetval : Nat
  charucoCorners : CornerSet
  charucoIds : IdSet
deriving DecidableEq

/-- `process_frame` (lines 28-41 of `main.py`): detect markers and, only
when at least one marker was found, draw them and interpolate ChArUco
corners, drawing those too when interpolation matched anything.  The
drawing routines are external and are passed in as functions on the pixel
payload; only the argument image is mutated. -/
def process_frame (drawM : Nat → List (Int × Int) → Nat)
    (drawC : Nat → CornerSet → IdSet → Nat) (image : Frame) : Frame :=
  if 0 < image.markerCorners.length then
    let px := drawM image.pixels image.markerCorners
    if image.interpRetval ≠ 0 then
      { image with pixels := drawC px image.charucoCorners image.charucoIds }
    else
      { image with pixels := px }
  else image

/-- The vision-library calls `process_frame` makes for one frame:
interpolation happens only behind the `len(corners) > 0` guard, and corner
drawing additionally behind the `retval` guard. -/
def processFrameCalls (fr : Frame) : List LibCall :=
  [LibCall.detectMarkers] ++
  (if 0 < fr.markerCorners.length then
    [LibCall.drawMarkers, LibCall.interpolate] ++
      (if fr.interpRetval ≠ 0 then [LibCall.drawCorners] else [])
  else [])

/-- One iteration of the live-capture loop as seen from outside: the
result of `cam.read()` and the key `cv2.waitKey(1)` returns (an `Int`,
`-1` when no key is pressed; the code tests `k % 256`). -/
structure CamEvent where
  ret : Bool
  frame : Frame
  key : Int
deriving DecidableEq

/-- The state of the live-capture loop: the save counter `img_counter`,
the `cv2.imwrite` calls made so far (filename and written frame), the
frames handed to `cv2.imshow`, and the console messages. -/
structure LiveState where
  img_counter : Nat
  written : List (String × Frame)
  displayed : List Frame
  messages : List String
deriving DecidableEq

/-- Initial live-loop state (`img_counter = 0`, line 47 of `main.py`). -/
def initialLive : LiveState :=
  { img_counter := 0, written := [], displayed := [], messages := [] }

/-- The save filename: `"./calibration_pictures/calibration_img{}.png".format(img_counter)`. -/
def imgName (n : Nat) : String :=
  "./calibration_pictures/calibration_img" ++ toString n ++ ".png"

/-- The live-capture loop (lines 49-68 of `main.py`) run over a finite
stream of camera events.  Each iteration: break on a failed read; deep-copy
the frame, overlay detections on the copy via `process_frame` and display
the copy; then on ESC (27) break, on SPACE (32) write the ORIGINAL frame
under `imgName img_counter`, bump the counter and continue, otherwise just
continue. -/
def liveRun (drawM : Nat → List (Int × Int) → Nat)
    (drawC : Nat → CornerSet → IdSet → Nat) :
    LiveState → List CamEvent → LiveState
  | s, [] => s
  | s, e :: rest =>
    if e.ret = false then
      { s with messages := s.messages ++ ["failed to grab frame"] }
    else
      let s1 : LiveState :=
        { s with displayed := s.displayed ++ [process_frame drawM drawC e.frame] }
      if e.key % 256 = 27 then
        { s1 with messages := s1.messages ++ ["Escape hit, closing..."] }
      else if e.key % 256 = 32 then
        liveRun drawM drawC
          { s1 with
            written := s1.written ++ [(imgName s1.img_counter, e.frame)],
            messages := s1.messages ++ [imgName s1.img_counter ++ " written!"],
            img_counter := s1.img_counter + 1 } rest
      else
        liveRun drawM drawC s1 rest

/-- The raw frames of the save-key (SPACE) events the live loop reaches
before breaking (failed read or ESC). -/
def pressedFrames : List CamEvent → List Frame
  | [] => []
  | e :: rest =>
    if e.ret = false then []
    else if e.key % 256 = 27 then []
    else if e.key % 256 = 32 then e.frame :: pressedFrames rest
    else pressedFrames rest

/-- The frames the live loop displays (every successfully read frame up to
and including the ESC iteration, which displays before testing the key). -/
def previewFrames : List CamEvent → List Frame
  | [] => []
  | e :: rest =>
    if e.ret = false then []
    else if e.key % 256 = 27 then [e.frame]
    else e.frame :: previewFrames rest

/-- The abort message of the empty-glob check (line 127 of `main.py`). -/
def noImagesMsg : String :=
  "Calibration was unsuccessful. No images of charucoboards were found. Add images of charucoboards and use or alter the naming conventions used in this file."

/-- The abort message of the unset-resolution check (line 135 of `main.py`). -/
def noBoardsMsg : String :=
  "Calibration was unsuccessful. We couldn\x27t detect charucoboards in any of the images supplied. Try changing the patternSize passed into Charucoboard_create(), or try different pictures of charucoboards."

/-- A value written to the `cv2.FileStorage` key-value output file. -/
inductive StorageValue where
  | str (s : String)
  | size (sz : Nat × Nat)
  | mat (m : List (List Int))
  | vec (v : List Int)
deriving DecidableEq

/-- What `cv2.aruco.calibrateCameraCharuco` returns: the success flag and
the numeric results.  The solver itself is external; the tail of the
script is parametrised by it. -/
structure SolverResult where
  retval : Bool
  camera_matrix : List (List Int)
  distortion_coefficients : List Int
  rvecs : List (List Int)
  tvecs : List (List Int)
deriving DecidableEq

/-- The observable outcome of the batch tail: the console messages it
prints, whether the calibration solver was invoked, and the key-value
entries written to `calibration.json` (`none` when nothing is written). -/
structure FinishResult where
  messages : List String
  solverInvoked : Bool
  output : Option (List (String × StorageValue))
deriving DecidableEq

/-- The tail of the batch flow (lines 125-158 of `main.py`), in the
source's order: first `len(images) < 1` aborts with `noImagesMsg`; then
`not image_size` aborts with `noBoardsMsg`; otherwise the solver runs on
the accumulated lists and the recorded resolution, and on `retval` the
four fields are written to the output file, else only a failure message is
printed. `now` stands for `str(datetime.datetime.now())`. -/
def batchFinish (images : List ImageFile) (s : BatchState)
    (solve : List CornerSet → List IdSet → Nat × Nat → SolverResult)
    (now : String) : FinishResult :=
  if images.length < 1 then
    { messages := [noImagesMsg], solverInvoked := false, output := none }
  else
    match s.image_size with
    | none =>
      { messages := [noBoardsMsg], solverInvoked := false, output := none }
    | some sz =>
      let r := solve s.corners_all s.ids_all sz
      if r.retval then
        { messages := ["Calibration finished"], solverInvoked := true,
          output := some
            [("calibration_date", StorageValue.str now),
             ("camera_resolution", StorageValue.size sz),
             ("camera_matrix", StorageValue.mat r.camera_matrix),
             ("distortion_coefficients", StorageValue.vec r.distortion_coefficients)] }
      else
        { messages := ["ERROR: Calibration failed"], solverInvoked := true,
          output := none }

/-- A sample image file that decodes and passes the 20-corner threshold. -/
def fileA : ImageFile :=
  { name := "./calibration_pictures/calibration_img0.png", decodes := true,
    shape := (480, 640), markerCorners := [(1, 2)], markerIds := [3],
    response := 30, charucoCorners := [(5, 6)], charucoIds := [7] }

/-- A sample image file that decodes but yields no markers and a zero
matched-corner count. -/
def fileB : ImageFile :=
  { name := "./calibration_pictures/calibration_img1.png", decodes := true,
    shape := (480, 640), markerCorners := [], markerIds := [],
    response := 0, charucoCorners := [], charucoIds := [] }

/-- A sample image file whose decode fails (`cv2.imread` returns `None`). -/
def fileC : ImageFile :=
  { name := "./calibration_pictures/broken.png", decodes := false,
    shape := (0, 0), markerCorners := [], markerIds := [],
    response := 0, charucoCorners := [], charucoIds := [] }

/-- A sample solver that reports success. -/
def solverOk : List CornerSet → List IdSet → Nat × Nat → SolverResult :=
  fun _ _ _ =>
    { retval := true, camera_matrix := [[1]], distortion_coefficients := [0],
      rvecs := [], tvecs := [] }

/-- A sample solver that reports failure. -/
def solverFail : List CornerSet → List IdSet → Nat × Nat → SolverResult :=
  fun _ _ _ =>
    { retval := false, camera_matrix := [], distortion_coefficients := [],
      rvecs := [], tvecs := [] }

/-- A sample accumulated state with a recorded resolution. -/
def demoState : BatchState :=
  { corners_all := [[(5, 6)]], ids_all := [[7]], image_size := some (640, 480),
    log := [] }

/-- A sample camera frame with no detected markers. -/
def frameNoMarkers : Frame :=
  { pixels := 0, markerCorners := [], markerIds := [], interpRetval := 0,
    charucoCorners := [], charucoIds := [] }

/-- Accumulated corner sets after folding the batch step from any state:
the accepted images' `charuco_corners`, in order, appended to the starting
list. -/
theorem foldl_batchStep_corners (L : List ImageFile) :
    ∀ s : BatchState,
      (List.foldl batchStep s L).corners_all
        = s.corners_all
          ++ (L.filter (fun f => decide (20 < f.response))).map
              (fun f => f.charucoCorners) := by
  induction L with
  | nil => intro s; simp
  | cons f rest ih =>
    intro s
    simp only [List.foldl_cons, List.filter_cons]
    by_cases h : 20 < f.response
    · simp [h, ih, batchStep]
    · simp [h, ih, batchStep]

/-- Accumulated id sets after folding the batch step from any state. -/
theorem foldl_batchStep_ids (L : List ImageFile) :
    ∀ s : BatchState,
      (List.foldl batchStep s L).ids_all
        = s.ids_all
          ++ (L.filter (fun f => decide (20 < f.response))).map
              (fun f => f.charucoIds) := by
  induction L with
  | nil => intro s; simp
  | cons f rest ih =>
    intro s
    simp only [List.foldl_cons, List.filter_cons]
    by_cases h : 20 < f.response
    · simp [h, ih, batchStep]
    · simp [h, ih, batchStep]

/-- Once `image_size` is set it is never reassigned by the batch loop. -/
theorem foldl_batchStep_size_some (L : List ImageFile) (v : Nat × Nat) :
    ∀ s : BatchState, s.image_size = some v →
      (List.foldl batchStep s L).image_size = some v := by
  induction L with
  | nil => intro s hs; simpa using hs
  | cons f rest ih =>
    intro s hs
    simp only [List.foldl_cons]
    by_cases h : 20 < f.response
    · exact ih _ (by simp [batchStep, h, hs])
    · exact ih _ (by simp [batchStep, h, hs])

/-- Starting from an unset `image_size`, the batch loop records the
reversed shape of the first image passing the threshold, if any. -/
theorem foldl_batchStep_size_none (L : List ImageFile) :
    ∀ s : BatchState, s.image_size = none →
      (List.foldl batchStep s L).image_size
        = (L.find? (fun f => decide (20 < f.response))).map
            (fun f => (f.shape.2, f.shape.1)) := by
  induction L with
  | nil => intro s hs; simpa using hs
  | cons f rest ih =>
    intro s hs
    simp only [List.foldl_cons]
    by_cases h : 20 < f.response
    · rw [List.find?_cons_of_pos _ (by simpa using h)]
      have hset : (batchStep s f).image_size = some (f.shape.2, f.shape.1) := by
        simp [batchStep, h, hs]
      simpa using foldl_batchStep_size_some rest _ _ hset
    · rw [List.find?_cons_of_neg _ (by simpa using h)]
      have hkeep : (batchStep s f).image_size = none := by
        simp [batchStep, h, hs]
      exact ih _ hkeep

/-- The frames the live loop hands to `cv2.imwrite` are exactly the raw
camera frames of the SPACE events it reaches, independent of the drawing
functions: overlays touch only the displayed deep copy. -/
theorem liveRun_written_frames (drawM : Nat → List (Int × Int) → Nat)
    (drawC : Nat → CornerSet → IdSet → Nat) (events : List CamEvent) :
    ∀ s : LiveState,
      (liveRun drawM drawC s events).written.map Prod.snd
        = s.written.map Prod.snd ++ pressedFrames events := by
  induction events with
  | nil => intro s; simp [liveRun, pressedFrames]
  | cons e rest ih =>
    intro s
    by_cases hr : e.ret = false
    · simp [liveRun, pressedFrames, hr]
    · by_cases h27 : e.key % 256 = 27
      · simp [liveRun, pressedFrames, hr, h27]
      · by_cases h32 : e.key % 256 = 32
        · simp [liveRun, pressedFrames, hr, h27, h32, ih]
        · simp [liveRun, pressedFrames, hr, h27, h32, ih]

/-- The filenames the live loop writes carry the consecutive counters
`img_counter, img_counter + 1, ...`, one per SPACE event reached. -/
theorem liveRun_written_names (drawM : Nat → List (Int × Int) → Nat)
    (drawC : Nat → CornerSet → IdSet → Nat) (events : List CamEvent) :
    ∀ s : LiveState,
      (liveRun drawM drawC s events).written.map Prod.fst
        = s.written.map Prod.fst
          ++ (List.range' s.img_counter (pressedFrames events).length).map imgName := by
  induction events with
  | nil => intro s; simp [liveRun, pressedFrames]
  | cons e rest ih =>
    intro s
    by_cases hr : e.ret = false
    · simp [liveRun, pressedFrames, hr]
    · by_cases h27 : e.key % 256 = 27
      · simp [liveRun, pressedFrames, hr, h27]
      · by_cases h32 : e.key % 256 = 32
        · simp [liveRun, pressedFrames, hr, h27, h32, ih, List.range'_succ]
        · simp [liveRun, pressedFrames, hr, h27, h32, ih]

/-- The frames the live loop displays are the overlay-processed copies of
every previewed frame, in order. -/
theorem liveRun_displayed (drawM : Nat → List (Int × Int) → Nat)
    (drawC : Nat → CornerSet → IdSet → Nat) (events : List CamEvent) :
    ∀ s : LiveState,
      (liveRun drawM drawC s events).displayed
        = s.displayed ++ (previewFrames events).map (process_frame drawM drawC) := by
  induction events with
  | nil => intro s; simp [liveRun, previewFrames]
  | cons e rest ih =>
    intro s
    by_cases hr : e.ret = false
    · simp [liveRun, previewFrames, hr]
    · by_cases h27 : e.key % 256 = 27
      · simp [liveRun, previewFrames, hr, h27]
      · by_cases h32 : e.key % 256 = 32
        · simp [liveRun, previewFrames, hr, h27, h32, ih]
        · simp [liveRun, previewFrames, hr, h27, h32, ih]

/-- C1: in the batch loop an image's interpolated ChArUco corners and ids
are appended to the accumulated sequences if and only if the matched-corner
count `response` exceeds 20 (equivalently, is at least 21); an image with
`response ≤ 20` leaves both sequences and the recorded resolution
unchanged. -/
theorem batch_threshold_gate (s : BatchState) (f : ImageFile) :
    (20 < f.response →
      (batchStep s f).corners_all = s.corners_all ++ [f.charucoCorners] ∧
      (batchStep s f).ids_all = s.ids_all ++ [f.charucoIds]) ∧
    (f.response ≤ 20 →
      (batchStep s f).corners_all = s.corners_all ∧
      (batchStep s f).ids_all = s.ids_all ∧
      (batchStep s f).image_size = s.image_size) ∧
    (20 < f.response ↔ 21 ≤ f.response) := by
  refine ⟨fun h => ?_, fun h => ?_, by omega⟩
  · simp [batchStep, h]
  · have h2 : ¬ 20 < f.response := by omega
    simp [batchStep, h2]

/-- Witness for C1: `fileA` (`response = 30`) is appended, `fileB`
(`response = 0`) changes nothing. -/
theorem batch_threshold_gate_witness :
    ((batchStep initialBatch fileA).corners_all
        = initialBatch.corners_all ++ [fileA.charucoCorners] ∧
      (batchStep initialBatch fileA).ids_all
        = initialBatch.ids_all ++ [fileA.charucoIds]) ∧
    ((batchStep initialBatch fileB).corners_all = initialBatch.corners_all ∧
      (batchStep initialBatch fileB).ids_all = initialBatch.ids_all ∧
      (batchStep initialBatch fileB).image_size = initialBatch.image_size) :=
  ⟨(batch_threshold_gate initialBatch fileA).1 (by decide),
   (batch_threshold_gate initialBatch fileB).2.1 (by decide)⟩

/-- C2: the two accumulated sequences are, at every point of the batch
loop (apply the theorem to any prefix of the image list), the corner sets
and the id sets of the accepted images in acceptance order; in particular
they always have equal length, equal to the number of images passing the
threshold, and the i-th entries of both come from the i-th accepted
image. -/
theorem batch_parallel_sequences (images : List ImageFile) :
    (runBatch images).corners_all
      = (images.filter (fun f => decide (20 < f.response))).map
          (fun f => f.charucoCorners) ∧
    (runBatch images).ids_all
      = (images.filter (fun f => decide (20 < f.response))).map
          (fun f => f.charucoIds) ∧
    (runBatch images).corners_all.length = (runBatch images).ids_all.length ∧
    (runBatch images).corners_all.length
      = (images.filter (fun f => decide (20 < f.response))).length := by
  have h1 := foldl_batchStep_corners images initialBatch
  have h2 := foldl_batchStep_ids images initialBatch
  rw [show initialBatch.corners_all = [] from rfl, List.nil_append] at h1
  rw [show initialBatch.ids_all = [] from rfl, List.nil_append] at h2
  refine ⟨?_, ?_, ?_, ?_⟩ <;> simp [runBatch, h1, h2]

/-- C3: the recorded resolution is the reversed greyscale shape of the
first image in iteration order whose matched-corner count passed the
threshold (`none` when no image passed); since the right-hand side depends
only on that first accepted image, later accepted images with different
dimensions never reassign it. -/
theorem resolution_from_first_accepted (images : List ImageFile) :
    (runBatch images).image_size
      = (images.find? (fun f => decide (20 < f.response))).map
          (fun f => (f.shape.2, f.shape.1)) := by
  simpa [runBatch] using foldl_batchStep_size_none images initialBatch rfl

/-- C4: with an empty glob the batch tail prints the no-images message,
never invokes the calibration solver and writes no output file, whatever
the solver and timestamp are. -/
theorem empty_glob_aborts
    (solve : List CornerSet → List IdSet → Nat × Nat → SolverResult)
    (now : String) :
    (batchFinish [] (runBatch []) solve now).messages = [noImagesMsg] ∧
    (batchFinish [] (runBatch []) solve now).solverInvoked = false ∧
    (batchFinish [] (runBatch []) solve now).output = none := by
  refine ⟨rfl, rfl, rfl⟩

/-- C5: when the glob is non-empty but no image ever passes the threshold,
the batch tail prints the distinct no-boards message, never invokes the
solver and writes no output file. -/
theorem all_below_threshold_aborts (images : List ImageFile)
    (solve : List CornerSet → List IdSet → Nat × Nat → SolverResult)
    (now : String) (hne : images ≠ [])
    (hall : ∀ f ∈ images, f.response ≤ 20) :
    (batchFinish images (runBatch images) solve now).messages = [noBoardsMsg] ∧
    (batchFinish images (runBatch images) solve now).solverInvoked = false ∧
    (batchFinish images (runBatch images) solve now).output = none ∧
    noBoardsMsg ≠ noImagesMsg := by
  have hfind : images.find? (fun f => decide (20 < f.response)) = none := by
    rw [List.find?_eq_none]
    intro f hf
    simpa using Nat.not_lt.mpr (hall f hf)
  have hsize : (runBatch images).image_size = none := by
    have h := foldl_batchStep_size_none images initialBatch rfl
    rw [hfind] at h
    simpa [runBatch] using h
  have hlen : ¬ images.length < 1 := by
    cases images with
    | nil => exact absurd rfl hne
    | cons a l => simp
  have hmain : batchFinish images (runBatch images) solve now
      = { messages := [noBoardsMsg], solverInvoked := false, output := none } := by
    unfold batchFinish
    rw [if_neg hlen, hsize]
  exact ⟨by rw [hmain], by rw [hmain], by rw [hmain], by decide⟩

/-- Witness for C5: a singleton batch whose only image has a zero
matched-corner count aborts with the no-boards message. -/
theorem all_below_threshold_aborts_witness :
    (batchFinish [fileB] (runBatch [fileB]) solverOk "t").messages = [noBoardsMsg] ∧
    (batchFinish [fileB] (runBatch [fileB]) solverOk "t").solverInvoked = false ∧
    (batchFinish [fileB] (runBatch [fileB]) solverOk "t").output = none ∧
    noBoardsMsg ≠ noImagesMsg :=
  all_below_threshold_aborts [fileB] solverOk "t" (by decide) (by decide)

/-- C6: when the solver reports success the batch tail writes exactly the
four fields calibration_date, camera_resolution, camera_matrix and
distortion_coefficients, with the resolution field equal to the recorded
`image_size`; when it reports failure only the error message is printed
and nothing is written. -/
theorem solver_result_persistence (images : List ImageFile) (s : BatchState)
    (solve : List CornerSet → List IdSet → Nat × Nat → SolverResult)
    (now : String) (sz : Nat × Nat)
    (hne : images ≠ []) (hsz : s.image_size = some sz) :
    ((solve s.corners_all s.ids_all sz).retval = true →
      (batchFinish images s solve now).output
        = some [("calibration_date", StorageValue.str now),
                ("camera_resolution", StorageValue.size sz),
                ("camera_matrix",
                  StorageValue.mat (solve s.corners_all s.ids_all sz).camera_matrix),
                ("distortion_coefficients",
                  StorageValue.vec
                    (solve s.corners_all s.ids_all sz).distortion_coefficients)] ∧
      (batchFinish images s solve now).messages = ["Calibration finished"]) ∧
    ((solve s.corners_all s.ids_all sz).retval = false →
      (batchFinish images s solve now).output = none ∧
      (batchFinish images s solve now).messages = ["ERROR: Calibration failed"]) := by
  have hlen : ¬ images.length < 1 := by
    cases images with
    | nil => exact absurd rfl hne
    | cons a l => simp
  constructor
  · intro hr
    unfold batchFinish
    rw [if_neg hlen, hsz]
    simp [hr]
  · intro hr
    unfold batchFinish
    rw [if_neg hlen, hsz]
    simp [hr]

/-- Witness for C6: on `demoState` a succeeding solver yields the four
fields with the recorded resolution, a failing one writes nothing. -/
theorem solver_result_persistence_witness :
    ((batchFinish [fileA] demoState solverOk "t").output
        = some [("calibration_date", StorageValue.str "t"),
                ("camera_resolution", StorageValue.size (640, 480)),
                ("camera_matrix", StorageValue.mat [[1]]),
                ("distortion_coefficients", StorageValue.vec [0])] ∧
      (batchFinish [fileA] demoState solverOk "t").messages
        = ["Calibration finished"]) ∧
    ((batchFinish [fileA] demoState solverFail "t").output = none ∧
      (batchFinish [fileA] demoState solverFail "t").messages
        = ["ERROR: Calibration failed"]) := by
  constructor
  · exact (solver_result_persistence [fileA] demoState solverOk "t" (640, 480)
      (by decide) rfl).1 rfl
  · exact (solver_result_persistence [fileA] demoState solverFail "t" (640, 480)
      (by decide) rfl).2 rfl

/-- C7: the batch flow treats an image with fewer than 20 matched corners
as board-not-detected: it contributes nothing to the sequences or the
resolution and a diagnostic naming the image is printed; moreover no other
image-level validation exists, since whether the diagnostic (rather than
an acceptance) happens is decided by the threshold test alone. -/
theorem below_twenty_discarded (s : BatchState) (f : ImageFile) :
    (f.response < 20 →
      (batchStep s f).corners_all = s.corners_all ∧
      (batchStep s f).ids_all = s.ids_all ∧
      (batchStep s f).image_size = s.image_size ∧
      (batchStep s f).log
        = s.log ++ ["Not able to detect a charuco board in image: " ++ f.name]) ∧
    ((batchStep s f).log = s.log ↔ 20 < f.response) := by
  constructor
  · intro h
    have h2 : ¬ 20 < f.response := by omega
    simp [batchStep, h2]
  · constructor
    · intro hl
      by_cases h : 20 < f.response
      · exact h
      · exfalso
        have hlog : (batchStep s f).log
            = s.log ++ ["Not able to detect a charuco board in image: " ++ f.name] := by
          simp [batchStep, h]
        rw [hlog] at hl
        have hlen := congrArg List.length hl
        simp [List.length_append] at hlen
    · intro h
      simp [batchStep, h]

/-- Witness for C7: `fileB` (`response = 0`) is discarded with the
diagnostic naming it. -/
theorem below_twenty_discarded_witness :
    (batchStep initialBatch fileB).corners_all = initialBatch.corners_all ∧
    (batchStep initialBatch fileB).ids_all = initialBatch.ids_all ∧
    (batchStep initialBatch fileB).image_size = initialBatch.image_size ∧
    (batchStep initialBatch fileB).log
      = initialBatch.log
        ++ ["Not able to detect a charuco board in image: " ++ fileB.name] :=
  (below_twenty_discarded initialBatch fileB).1 (by decide)

/-- C8: in the live loop the frames written on SPACE are exactly the raw
camera frames (independent of the overlay-drawing functions, which only
affect the displayed deep copies), their filenames carry the pairwise
distinct consecutive numbers `0, 1, ...` (`List.range' 0 n` is the list
`[0, 1, ..., n - 1]`), and the loop keeps previewing and saving after each
save, as the characterisation over the whole event stream shows. -/
theorem live_save_unmodified (drawM : Nat → List (Int × Int) → Nat)
    (drawC : Nat → CornerSet → IdSet → Nat) (events : List CamEvent) :
    (liveRun drawM drawC initialLive events).written.map Prod.snd
      = pressedFrames events ∧
    (liveRun drawM drawC initialLive events).written.map Prod.fst
      = (List.range' 0 (pressedFrames events).length).map imgName ∧
    (liveRun drawM drawC initialLive events).displayed
      = (previewFrames events).map (process_frame drawM drawC) := by
  refine ⟨?_, ?_, ?_⟩
  · simpa [initialLive] using liveRun_written_frames drawM drawC events initialLive
  · simpa [initialLive] using liveRun_written_names drawM drawC events initialLive
  · simpa [initialLive] using liveRun_displayed drawM drawC events initialLive

/-- C9: the two fatal checks run in a fixed order after the loop:
with an empty glob the no-images message is printed (even though the
resolution is then also unset), the no-boards message requires a non-empty
glob with unset resolution, and the printed message list can never carry
both abort messages. -/
theorem abort_checks_ordered (images : List ImageFile) (s : BatchState)
    (solve : List CornerSet → List IdSet → Nat × Nat → SolverResult)
    (now : String) :
    ((runBatch []).image_size = none) ∧
    ((batchFinish [] s solve now).messages = [noImagesMsg]) ∧
    (images ≠ [] → s.image_size = none →
      (batchFinish images s solve now).messages = [noBoardsMsg]) ∧
    ¬((batchFinish images s solve now).messages = [noImagesMsg] ∧
      (batchFinish images s solve now).messages = [noBoardsMsg]) := by
  refine ⟨rfl, rfl, ?_, ?_⟩
  · intro hne hsz
    have hlen : ¬ images.length < 1 := by
      cases images with
      | nil => exact absurd rfl hne
      | cons a l => simp
    unfold batchFinish
    rw [if_neg hlen, hsz]
  · rintro ⟨h1, h2⟩
    rw [h1] at h2
    exact absurd h2 (by decide)

/-- Witness for C9: a one-image batch that never sets the resolution gets
the no-boards message, while the empty batch gets the no-images one. -/
theorem abort_checks_ordered_witness :
    ((runBatch []).image_size = none) ∧
    ((batchFinish [] (runBatch [fileB]) solverOk "t").messages = [noImagesMsg]) ∧
    ((batchFinish [fileB] (runBatch [fileB]) solverOk "t").messages = [noBoardsMsg]) ∧
    ¬((batchFinish [fileB] (runBatch [fileB]) solverOk "t").messages = [noImagesMsg] ∧
      (batchFinish [fileB] (runBatch [fileB]) solverOk "t").messages = [noBoardsMsg]) := by
  obtain ⟨a, b, c, d⟩ :=
    abort_checks_ordered [fileB] (runBatch [fileB]) solverOk "t"
  exact ⟨a, b, c (by decide) rfl, d⟩

/-- C10: the batch loop body calls corner interpolation (and the decode)
unconditionally for every globbed file, even one with zero detected
markers, whereas `process_frame` calls interpolation exactly when at least
one marker was detected; and since the decode result is never checked, the
batch flow only completes when every file decodes: a failing decode aborts
it at that file. -/
theorem batch_unguarded_calls (s : BatchState) (f : ImageFile) (fr : Frame) :
    LibCall.interpolate ∈ batchCalls f ∧
    LibCall.imread ∈ batchCalls f ∧
    (LibCall.interpolate ∈ processFrameCalls fr ↔ 0 < fr.markerCorners.length) ∧
    (f.decodes = false → runBatchE s [f] = Except.error f.name) ∧
    (f.decodes = true → runBatchE s [f] = Except.ok (batchStep s f)) := by
  refine ⟨?_, ?_, ?_, ?_, ?_⟩
  · simp [batchCalls]
  · simp [batchCalls]
  · constructor
    · intro h
      by_cases h0 : 0 < fr.markerCorners.length
      · exact h0
      · exfalso
        simp [processFrameCalls, h0] at h
    · intro h
      simp [processFrameCalls, h]
  · intro h
    simp [runBatchE, batchStepE, h]
  · intro h
    simp [runBatchE, batchStepE, h]

/-- Witness for C10: `fileB` has zero markers yet its batch trace contains
the interpolation call, `frameNoMarkers` makes `process_frame` skip it,
non-decoding `fileC` aborts the batch flow and decoding `fileA` proceeds. -/
theorem batch_unguarded_calls_witness :
    (LibCall.interpolate ∈ batchCalls fileB ∧
      LibCall.imread ∈ batchCalls fileB ∧
      (LibCall.interpolate ∈ processFrameCalls frameNoMarkers ↔
        0 < frameNoMarkers.markerCorners.length)) ∧
    runBatchE initialBatch [fileC] = Except.error fileC.name ∧
    runBatchE initialBatch [fileA] = Except.ok (batchStep initialBatch fileA) :=
  ⟨⟨(batch_unguarded_calls initialBatch fileB frameNoMarkers).1,
    (batch_unguarded_calls initialBatch fileB frameNoMarkers).2.1,
    (batch_unguarded_calls initialBatch fileB frameNoMarkers).2.2.1⟩,
   (batch_unguarded_calls initialBatch fileC frameNoMarkers).2.2.2.1 rfl,
   (batch_unguarded_calls initialBatch fileA frameNoMarkers).2.2.2.2 rfl⟩
